import Mathlib

/-!
Shallow embedding of the `contacts` Django app (models, query-cancellation
mixins, views and benchmark harness) together with proofs of the behavioural
claims about it.

Conventions of the embedding:
* wall-clock values returned by `time.time()` are rationals (`ℚ`);
* Python truthiness of optional strings / floats is made explicit
  (`strTruthy`, `ratOptTruthy`);
* database effects are modelled as the list of SQL command strings a block of
  code sends through `connection.cursor()`;
* Python exceptions are an explicit `PyError` value in an `Except` result.
-/

namespace Crm

/-- Python truthiness of an optional string: `None` and the empty string are
falsy, every other string is truthy. -/
def strTruthy : Option String → Bool
  | none => false
  | some s => s ≠ ""

/-- Python truthiness of an optional float (here a rational): `None` and `0.0`
are falsy. Mirrors `if self.start_time:` in `mixins.py`. -/
def ratOptTruthy : Option ℚ → Bool
  | none => false
  | some q => q ≠ 0

/-- Python `int()` applied to a float/rational: truncation toward zero. -/
def pyInt (q : ℚ) : Int := q.num.tdiv q.den

/-- Substring test on character lists: `containsSub needle hay` is true iff
`needle` occurs contiguously inside `hay`. This is the semantics of Python's
`needle in hay` on strings (and of SQL `LIKE concat of percent needle percent`). -/
def containsSub : List Char → List Char → Bool
  | needle, [] => needle.isEmpty
  | needle, c :: rest => needle.isPrefixOf (c :: rest) || containsSub needle rest

/-- Lower-cased character list of a string, the model of Python `s.lower()`. -/
def lowerStr (s : String) : List Char := s.data.map Char.toLower

/-- An HTTP request as the views see it: its query parameters and the optional
`_cancelled` attribute (absent, or present with a given truthiness). -/
structure Request where
  queryParams : List (String × String)
  cancelled : Option Bool
deriving Repr, DecidableEq

/-- `QueryCancellationMixin._get_query_param`: look the parameter up in the
request's query dictionary, `None` when absent. -/
def get_query_param (req : Request) (name : String) : Option String :=
  (req.queryParams.find? (fun p => p.1 = name)).map Prod.snd

/-- Python exceptions that the embedded code can raise. -/
inductive PyError where
  | requestAborted (msg : String)
  | timeoutError (msg : String)
  | http404
deriving Repr, DecidableEq

/-- `QueryCancellationMixin.check_cancellation`: raise
`RequestAborted("Request was cancelled")` when the request carries a truthy
`_cancelled` attribute, otherwise return normally. -/
def check_cancellation (req : Request) : Except PyError Unit :=
  if req.cancelled.getD false then
    .error (.requestAborted "Request was cancelled")
  else
    .ok ()

/-- State of a `QueryCancellationContext` instance. -/
structure QueryCancellationContext where
  request : Request
  timeout : ℚ
  enable_cancellation : Bool
  start_time : Option ℚ
deriving Repr, DecidableEq

/-- `QueryCancellationContext._set_query_timeout`: the SQL commands sent when
setting the session-level timeout, by connection vendor. -/
def set_query_timeout_cmds (vendor : String) (timeout : ℚ) : List String :=
  if vendor = "postgresql" then
    ["SET statement_timeout = " ++ toString (pyInt (timeout * 1000))]
  else if vendor = "mysql" then
    ["SET SESSION max_execution_time = " ++ toString (pyInt (timeout * 1000))]
  else
    []

/-- `QueryCancellationContext._reset_query_timeout`: the SQL commands sent when
resetting the session-level timeout, by connection vendor. -/
def reset_query_timeout_cmds (vendor : String) : List String :=
  if vendor = "postgresql" then
    ["SET statement_timeout = DEFAULT"]
  else if vendor = "mysql" then
    ["SET SESSION max_execution_time = DEFAULT"]
  else
    []

/-- `QueryCancellationContext.__enter__` run at wall-clock time `now` on a
connection with the given vendor: record the start time, and issue the
session-timeout command when `enable_cancellation and timeout` is truthy.
It returns the updated context and the issued commands; it raises nothing. -/
def QueryCancellationContext.enter (ctx : QueryCancellationContext) (now : ℚ)
    (vendor : String) : QueryCancellationContext × List String :=
  let ctx1 := { ctx with start_time := some now }
  if ctx.enable_cancellation && (ctx.timeout != 0) then
    (ctx1, set_query_timeout_cmds vendor ctx.timeout)
  else
    (ctx1, [])

/-- The message of the `TimeoutError` raised by the context. -/
def timeoutMsg (timeout : ℚ) : String :=
  "Query exceeded timeout of " ++ toString timeout ++ " seconds"

/-- The trailing `_cancelled` check of `QueryCancellationContext.__exit__`. -/
def exitCancelCheck (ctx : QueryCancellationContext) : Except PyError Bool :=
  if ctx.request.cancelled.getD false then
    .error (.requestAborted "Request was cancelled")
  else
    .ok false

/-- The raise/return outcome of `QueryCancellationContext.__exit__` run at
wall-clock time `now`: after resetting the session timeout it raises
`TimeoutError` when the elapsed time strictly exceeds `timeout`, then raises
`RequestAborted` when the request was marked cancelled, and otherwise returns
`False`. -/
def QueryCancellationContext.exitResult (ctx : QueryCancellationContext)
    (now : ℚ) : Except PyError Bool :=
  if ratOptTruthy ctx.start_time then
    if now - ctx.start_time.getD 0 > ctx.timeout then
      .error (.timeoutError (timeoutMsg ctx.timeout))
    else
      exitCancelCheck ctx
  else
    exitCancelCheck ctx

/-- The SQL commands issued by `QueryCancellationContext.__exit__`: the reset
command when cancellation support is enabled, nothing otherwise. -/
def QueryCancellationContext.exitCmds (ctx : QueryCancellationContext)
    (vendor : String) : List String :=
  if ctx.enable_cancellation then reset_query_timeout_cmds vendor else []

/-- Row of the `address` table (`models.Address`). -/
structure Address where
  id : Nat
  street : String
  street_number : String
  city_code : String
  city : String
  country : String
deriving Repr, DecidableEq

/-- Row of the `appuser` table (`models.AppUser`); `address` is the nullable
foreign key to `Address`, timestamps are abstract ticks. -/
structure AppUser where
  id : Nat
  first_name : String
  last_name : String
  gender : Option String
  customer_id : String
  phone_number : Option String
  created : Nat
  address : Option Nat
  birthday : Option Nat
  last_updated : Nat
deriving Repr, DecidableEq

/-- Row of the `customer_relationship` table (`models.CustomerRelationship`);
`appuser` is the one-to-one foreign key to `AppUser`. -/
structure CustomerRelationship where
  id : Nat
  appuser : Nat
  points : Int
  created : Nat
  last_activity : Nat
deriving Repr, DecidableEq

/-- The database state the views read. -/
structure DB where
  users : List AppUser
  addresses : List Address
  relationships : List CustomerRelationship
deriving Repr, DecidableEq

/-- Django `field__icontains=v`: case-insensitive substring match. -/
def icontains (field v : String) : Bool :=
  containsSub (lowerStr v) (lowerStr field)

/-- The `Q(first_name__icontains=v) | Q(last_name__icontains=v)` predicate of
`ContactViewSet.get_queryset`. -/
def nameMatches (v : String) (u : AppUser) : Bool :=
  icontains u.first_name v || icontains u.last_name v

/-- `ContactViewSet.get_queryset`: check for cancellation, then return all
rows, narrowed by the `name` query parameter when it is truthy. -/
def get_queryset (req : Request) (db : DB) : Except PyError (List AppUser) :=
  match check_cancellation req with
  | .error e => .error e
  | .ok _ =>
    match get_query_param req "name" with
    | some v =>
        if v ≠ "" then .ok (db.users.filter (nameMatches v))
        else .ok db.users
    | none => .ok db.users

/-- Whether a user owns a `CustomerRelationship` row, the model of
`AppUser.objects.exclude(relationship__isnull=True)` membership. -/
def hasRelationship (db : DB) (u : AppUser) : Bool :=
  db.relationships.any (fun r => r.appuser = u.id)

/-- The three counts computed by `ContactViewSet.stats`: total users, users
with a non-null address, users with a relationship row. -/
def statsCounts (db : DB) : Nat × Nat × Nat :=
  (db.users.length,
   (db.users.filter (fun u => u.address.isSome)).length,
   (db.users.filter (hasRelationship db)).length)

/-- The operations `ContactViewSet` exposes: `list` and `retrieve` come from
the read-only viewset base, `stats` is the single extra GET action.
Modelled from the spec: the framework's read-only viewset base is not part of
the repository; per its documented behaviour it contributes exactly the
list and detail (retrieve) operations and no write operation. -/
inductive ViewOp where
  | listOp
  | retrieveOp (pk : Nat)
  | statsOp
deriving Repr, DecidableEq

/-- Response payloads the contact views produce. -/
inductive Body where
  | detail (msg : String)
  | contactList (rows : List AppUser)
  | contact (row : AppUser)
  | stats (total withAddr withRel : Nat)
deriving Repr, DecidableEq

/-- An HTTP response: status code and payload. -/
structure HttpResponse where
  status : Nat
  body : Body
deriving Repr, DecidableEq

/-- Observable side effects of handling a request, in order: entering the
cancellation context, evaluating the contact queryset, and each SQL command
sent to the database session. -/
inductive Event where
  | enteredContext
  | evaluatedQueryset
  | dbCommand (cmd : String)
deriving Repr, DecidableEq

/-- `ContactViewSet.query_timeout` (seconds). -/
def query_timeout : ℚ := 30

/-- The body run inside the cancellation context for each operation:
`super().list` / `super().retrieve` serialize the queryset (retrieve raises
`Http404` when no row has the requested primary key), `stats` computes the
three counts. All three only read the database. -/
def runBody (op : ViewOp) (req : Request) (db : DB) : Except PyError Body :=
  match op with
  | .listOp => (get_queryset req db).map Body.contactList
  | .retrieveOp pk =>
    match get_queryset req db with
    | .error e => .error e
    | .ok rows =>
      match rows.find? (fun u => u.id = pk) with
      | some u => .ok (.contact u)
      | none => .error .http404
  | .statsOp =>
    let c := statsCounts db
    .ok (.stats c.1 c.2.1 c.2.2)

/-- A `ContactViewSet` request handler (`list`, `retrieve` or `stats`): first
the `_cancel` query-parameter short-circuit, then the body wrapped in the
cancellation context (entered at wall-clock `tEnter`, exited at `tExit`).
Returns the response or propagated exception, the database state after the
request, and the emitted event trace. -/
def handle (op : ViewOp) (req : Request) (db : DB) (vendor : String)
    (tEnter tExit : ℚ) : Except PyError HttpResponse × DB × List Event :=
  if strTruthy (get_query_param req "_cancel") then
    (.ok ⟨499, .detail "Request cancelled"⟩, db, [])
  else
    let ctx0 : QueryCancellationContext :=
      { request := req, timeout := query_timeout,
        enable_cancellation := true, start_time := none }
    let st := ctx0.enter tEnter vendor
    let bodyRes := runBody op req db
    let exitRes := st.1.exitResult tExit
    let events := Event.enteredContext :: st.2.map Event.dbCommand
        ++ [Event.evaluatedQueryset]
        ++ (st.1.exitCmds vendor).map Event.dbCommand
    let final : Except PyError HttpResponse :=
      match exitRes with
      | .error e => .error e
      | .ok _ =>
        match bodyRes with
        | .error e => .error e
        | .ok b => .ok ⟨200, b⟩
    (final, db, events)

/-- Exceptions distinguished by `BenchmarkRunner.measure_time`. -/
inductive PyExc where
  | operationalError (msg : String)
  | otherExc (msg : String)
deriving Repr, DecidableEq

/-- Python `str(e)` for the two exception classes. -/
def PyExc.msg : PyExc → String
  | .operationalError m => m
  | .otherExc m => m

/-- Shape of `response.data` as far as `measure_time` inspects it. -/
inductive PyData where
  | dictWithResults (results : List Unit)
  | dictOther
  | plainList (items : List Unit)
  | otherData
deriving Repr, DecidableEq

/-- A benchmarked function's return value as `measure_time` inspects it:
optional `status_code` and `data` attributes. -/
structure BenchResponse where
  status_code : Option Nat
  data : Option PyData
deriving Repr, DecidableEq

/-- The record `measure_time` returns. -/
structure BenchRecord where
  execution_time_ms : ℚ
  query_count : Nat
  status_code : Option Nat
  result_count : Option Nat
  error : Option String
deriving Repr, DecidableEq

/-- The `'timeout' in error.lower() or 'QueryCanceled' in error` test of
`measure_time`'s `OperationalError` branch. -/
def timeoutLikeMsg (m : String) : Bool :=
  containsSub "timeout".data (lowerStr m) || containsSub "QueryCanceled".data m.data

/-- `BenchmarkRunner.measure_time`: run the benchmarked function (whose
outcome — a possibly-`None` response, or a raised exception — is the first
argument), and build the result record. `elapsedMs` and `queryCount` stand
for the measured wall time and logged query count. -/
def measure_time (outcome : Except PyExc (Option BenchResponse))
    (elapsedMs : ℚ) (queryCount : Nat) : BenchRecord :=
  match outcome with
  | .ok resp =>
    let sc := match resp with
      | some r => r.status_code
      | none => none
    let rc := match resp with
      | some r =>
        match r.data with
        | some (.dictWithResults rs) => some rs.length
        | some (.plainList items) => some items.length
        | _ => none
      | none => none
    { execution_time_ms := elapsedMs, query_count := queryCount,
      status_code := sc, result_count := rc, error := none }
  | .error e =>
    let err := match e with
      | .operationalError m => if timeoutLikeMsg m then "TIMEOUT" else m
      | .otherExc m => m
    { execution_time_ms := elapsedMs, query_count := queryCount,
      status_code := none, result_count := none, error := some err }

/-- `total_pages = (total_count + page_size - 1) // page_size` from
`benchmark_pagination_all_pages`. -/
def totalPagesOf (total_count page_size : Nat) : Nat :=
  (total_count + page_size - 1) / page_size

/-- `middle_page = (total_pages + 1) // 2`. -/
def middlePage (tp : Nat) : Nat := (tp + 1) / 2

/-- The deterministic portion of `pages_to_test`: page 1, then the middle
page when distinct from 1, then the last page when distinct from both. -/
def basePages (tp : Nat) : List Nat :=
  [1] ++ (if middlePage tp ≠ 1 then [middlePage tp] else [])
      ++ (if tp ≠ 1 ∧ tp ≠ middlePage tp then [tp] else [])

/-- `available_pages`: pages `range(2, total_pages + 1)` not already chosen. -/
def availablePages (tp : Nat) : List Nat :=
  (List.range' 2 (tp - 1)).filter (fun p => decide (p ∉ basePages tp))

/-- `pages_to_test` after extending with the random sample and applying
`sorted(set(...))`; `sample` stands for the value of
`random.sample(available_pages, min(num_random_pages, len(available_pages)))`. -/
def pagesToTest (tp : Nat) (sample : List Nat) : List Nat :=
  let randoms := if (availablePages tp).length > 0 then sample else []
  List.insertionSort (fun a b => a ≤ b) ((basePages tp ++ randoms).dedup)

/-- `generate_customer_id` from `models.py`, with the random
`uuid.uuid4().hex` string supplied as the argument. -/
def generate_customer_id (hexStr : String) : String :=
  "CUST-" ++ String.mk ((hexStr.data.take 12).map Char.toUpper)

/-- The characters that can occur in `uuid.uuid4().hex`. -/
def uuidHexChars : List Char := "0123456789abcdef".data

/-! General lemmas about the embedded definitions. -/

/-- `containsSub` decides the `List.IsInfix` relation. -/
theorem containsSub_iff_isInfix (needle hay : List Char) :
    containsSub needle hay = true ↔ needle <:+: hay := by
  induction hay with
  | nil =>
    simp [containsSub, List.isEmpty_iff, List.infix_nil]
  | cons c rest ih =>
    simp [containsSub, List.infix_cons_iff, List.isPrefixOf_iff_prefix, ih,
      Bool.or_eq_true]

/-- `containsSub` equals the decision procedure of `List.IsInfix`. -/
theorem containsSub_eq_decide (needle hay : List Char) :
    containsSub needle hay = decide (needle <:+: hay) := by
  by_cases h : needle <:+: hay
  · simp [h, (containsSub_iff_isInfix needle hay).mpr h]
  · simp only [h, decide_False]
    by_contra hb
    exact h ((containsSub_iff_isInfix needle hay).mp (by
      cases hcs : containsSub needle hay
      · exact absurd hcs hb
      · rfl))

/-- The `TIMEOUT` test of `measure_time`, characterised at the level of the
infix relation. -/
theorem timeoutLikeMsg_iff (m : String) :
    timeoutLikeMsg m = true
      ↔ ("timeout".data <:+: lowerStr m ∨ "QueryCanceled".data <:+: m.data) := by
  unfold timeoutLikeMsg
  rw [Bool.or_eq_true, containsSub_iff_isInfix, containsSub_iff_isInfix]

/-- Upper-casing a lowercase hexadecimal character yields a decimal digit or
a letter between `A` and `F`. -/
theorem toUpper_hexChar (c : Char) (hc : c ∈ uuidHexChars) :
    (Char.toUpper c).isDigit = true
      ∨ ('A' ≤ Char.toUpper c ∧ Char.toUpper c ≤ 'F') := by
  have h : ∀ x ∈ uuidHexChars,
      (Char.toUpper x).isDigit = true
        ∨ ('A' ≤ Char.toUpper x ∧ Char.toUpper x ≤ 'F') := by decide
  exact h c hc

/-! Claim theorems. -/

/-- Claim C8: `QueryCancellationMixin.check_cancellation(request)` raises
`RequestAborted("Request was cancelled")` iff the request object has a
`_cancelled` attribute with a truthy value; in every other case it returns
normally (the embedded function is pure, so it modifies no state). -/
theorem check_cancellation_spec (req : Request) :
    (check_cancellation req
        = .error (.requestAborted "Request was cancelled")
      ↔ req.cancelled = some true)
    ∧ (req.cancelled ≠ some true → check_cancellation req = .ok ()) := by
  constructor
  · cases h : req.cancelled with
    | none => simp [check_cancellation, h]
    | some b => cases b <;> simp [check_cancellation, h]
  · intro hne
    cases h : req.cancelled with
    | none => simp [check_cancellation, h]
    | some b =>
      cases b
      · simp [check_cancellation, h]
      · exact absurd h hne

/-- Witness for C8: a request without the `_cancelled` attribute is not
aborted. -/
theorem check_cancellation_spec_witness :
    check_cancellation ⟨[], none⟩ = .ok () :=
  (check_cancellation_spec ⟨[], none⟩).2 (by simp)

/-- Claim C2: with cancellation enabled and a non-zero timeout `t` (seconds),
`__enter__` issues exactly one session-level timeout command — milliseconds
for the postgresql and mysql vendors, nothing for any other vendor — and
`__exit__` issues the corresponding reset-to-DEFAULT command for those two
vendors and nothing for any other. -/
theorem enter_exit_commands (req : Request) (t : ℚ) (vendor : String)
    (tEnter : ℚ) (ht : t ≠ 0) :
    ((QueryCancellationContext.mk req t true none).enter tEnter vendor).2
      = (if vendor = "postgresql" then
          ["SET statement_timeout = " ++ toString (pyInt (t * 1000))]
        else if vendor = "mysql" then
          ["SET SESSION max_execution_time = " ++ toString (pyInt (t * 1000))]
        else [])
    ∧ (((QueryCancellationContext.mk req t true none).enter tEnter vendor).1.exitCmds
        vendor)
      = (if vendor = "postgresql" then ["SET statement_timeout = DEFAULT"]
        else if vendor = "mysql" then ["SET SESSION max_execution_time = DEFAULT"]
        else []) := by
  constructor
  · simp [QueryCancellationContext.enter, set_query_timeout_cmds, ht]
  · unfold QueryCancellationContext.enter
    simp [QueryCancellationContext.exitCmds, reset_query_timeout_cmds, ht]

/-- Witness for C2: a 30-second timeout on postgresql issues the 30000 ms
statement-timeout command. -/
theorem enter_exit_commands_witness :
    ((QueryCancellationContext.mk ⟨[], none⟩ 30 true none).enter 5 "postgresql").2
      = ["SET statement_timeout = " ++ toString (pyInt ((30 : ℚ) * 1000))] :=
  ((enter_exit_commands ⟨[], none⟩ 30 "postgresql" 5 (by norm_num)).1).trans
    (by simp)

/-- Claim C1: the timeout check of `QueryCancellationContext` is post-hoc
only. `__enter__` (modelled by `QueryCancellationContext.enter`) has no raise
path at all — it only records the start time and issues the session-timeout
command — and for a context entered at positive wall-clock time `tEnter`,
`__exit__` raises `TimeoutError("Query exceeded timeout of {timeout}
seconds")` iff the elapsed time `tExit - tEnter` strictly exceeds the
configured timeout. Nothing in the embedded context interrupts the wrapped
block: `handle` always runs the body to completion between enter and exit. -/
theorem exit_timeout_iff (req : Request) (t : ℚ) (en : Bool) (vendor : String)
    (tEnter tExit : ℚ) (hEnter : 0 < tEnter) :
    ((QueryCancellationContext.mk req t en none).enter tEnter vendor).1.exitResult
        tExit
      = .error (.timeoutError (timeoutMsg t))
    ↔ tExit - tEnter > t := by
  have h1 : ((QueryCancellationContext.mk req t en none).enter tEnter vendor).1
      = ⟨req, t, en, some tEnter⟩ := by
    unfold QueryCancellationContext.enter
    split <;> rfl
  rw [h1]
  have h2 : ratOptTruthy (some tEnter) = true := by
    simp [ratOptTruthy]
    exact ne_of_gt hEnter
  unfold QueryCancellationContext.exitResult
  rw [h2]
  simp only [if_true]
  by_cases h3 : tExit - (Option.getD (some tEnter) 0) > t
  · simp only [h3, if_pos]
    simpa using h3
  · simp only [h3, if_neg, if_false]
    have h4 : ¬ tExit - tEnter > t := by simpa using h3
    simp only [h4, iff_false]
    unfold exitCancelCheck
    split <;> simp

/-- Witness for C1: entering at time 1 with a 1-second timeout and exiting at
time 3 raises the post-hoc `TimeoutError`. -/
theorem exit_timeout_iff_witness :
    (0 : ℚ) < 1
    ∧ ((QueryCancellationContext.mk ⟨[], none⟩ 1 true none).enter 1 "sqlite").1.exitResult 3
      = .error (.timeoutError (timeoutMsg 1)) :=
  ⟨by norm_num,
    (exit_timeout_iff ⟨[], none⟩ 1 true "sqlite" 1 3 (by norm_num)).mpr
      (by norm_num)⟩

/-- Claim C10: the stats body reports exactly the three counts of
`statsCounts`, and for every database state the two filtered counts are each
at most `total_contacts` (all three are natural numbers, hence non-negative):
they count subsets — users with a non-null address, respectively users owning
a relationship row — of the same user table. -/
theorem stats_counts_bounded (req : Request) (db : DB) :
    runBody .statsOp req db
      = .ok (.stats (statsCounts db).1 (statsCounts db).2.1 (statsCounts db).2.2)
    ∧ (statsCounts db).2.1 ≤ (statsCounts db).1
    ∧ (statsCounts db).2.2 ≤ (statsCounts db).1 :=
  ⟨rfl, List.length_filter_le _ _, List.length_filter_le _ _⟩

/-- Claim C3: the contact endpoint is read-only. `ViewOp` enumerates exactly
the operations `ContactViewSet` exposes (list, retrieve, stats), and handling
any of them leaves the stored user, address and relationship data unchanged:
every branch of every handler only reads the database state. -/
theorem contact_view_readonly (op : ViewOp) (req : Request) (db : DB)
    (vendor : String) (tEnter tExit : ℚ) :
    (handle op req db vendor tEnter tExit).2.1 = db
    ∧ (op = .listOp ∨ (∃ pk, op = .retrieveOp pk) ∨ op = .statsOp) := by
  constructor
  · unfold handle
    split <;> rfl
  · cases op with
    | listOp => exact .inl rfl
    | retrieveOp pk => exact .inr (.inl ⟨pk, rfl⟩)
    | statsOp => exact .inr (.inr rfl)

/-- Claim C4: a request whose `_cancel` query parameter is present with a
non-empty (truthy) value is answered with status 499 and body
`{'detail': 'Request cancelled'}` with an empty effect trace — the queryset is
not evaluated, the cancellation context is not entered, and no database
command is issued; a request whose `_cancel` parameter is absent or empty is
processed normally, i.e. the handler enters the cancellation context. -/
theorem cancel_param_short_circuit (op : ViewOp) (req : Request) (db : DB)
    (vendor : String) (tEnter tExit : ℚ) :
    (strTruthy (get_query_param req "_cancel") = true →
      handle op req db vendor tEnter tExit
        = (.ok ⟨499, .detail "Request cancelled"⟩, db, ([] : List Event)))
    ∧ (strTruthy (get_query_param req "_cancel") = false →
      ∃ rest, (handle op req db vendor tEnter tExit).2.2
        = Event.enteredContext :: rest) := by
  constructor
  · intro h
    unfold handle
    simp [h]
  · intro h
    unfold handle
    simp only [h, Bool.false_eq_true, if_false]
    exact ⟨_, rfl⟩

/-- Witness for C4: a list request with `_cancel=1` on an empty database is
short-circuited to the 499 response with no events. -/
theorem cancel_param_short_circuit_witness :
    strTruthy (get_query_param ⟨[("_cancel", "1")], none⟩ "_cancel") = true
    ∧ handle .listOp ⟨[("_cancel", "1")], none⟩ ⟨[], [], []⟩ "postgresql" 1 2
      = (.ok ⟨499, .detail "Request cancelled"⟩, ⟨[], [], []⟩, []) :=
  ⟨by decide,
    (cancel_param_short_circuit .listOp ⟨[("_cancel", "1")], none⟩ ⟨[], [], []⟩
      "postgresql" 1 2).1 (by decide)⟩

/-- Claim C7: for a request (not marked cancelled) with a non-empty `name`
query parameter `v`, `get_queryset` returns exactly the user rows whose
`first_name` or `last_name` contains `v` as a case-insensitive substring; for
a request without that parameter, or with an empty value, it returns all user
rows. -/
theorem get_queryset_name_filter (req : Request) (db : DB)
    (hnc : req.cancelled.getD false = false) :
    (∀ v, get_query_param req "name" = some v → v ≠ "" →
      get_queryset req db = .ok (db.users.filter (fun u =>
        decide (lowerStr v <:+: lowerStr u.first_name)
          || decide (lowerStr v <:+: lowerStr u.last_name))))
    ∧ ((get_query_param req "name" = none ∨ get_query_param req "name" = some "") →
      get_queryset req db = .ok db.users) := by
  have hok : check_cancellation req = .ok () := by
    simp [check_cancellation, hnc]
  constructor
  · intro v hv hne
    simp only [get_queryset, hok, hv]
    rw [if_pos hne]
    congr 1
    apply List.filter_congr
    intro u _
    unfold nameMatches icontains
    rw [containsSub_eq_decide, containsSub_eq_decide]
  · intro hcase
    unfold get_queryset
    rw [hok]
    rcases hcase with h | h
    · rw [h]
    · rw [h]
      simp

/-- Witness for C7: searching for `an` in a one-user database keeps the user
named `Anna`. -/
theorem get_queryset_name_filter_witness :
    get_queryset ⟨[("name", "an")], none⟩
        ⟨[⟨1, "Anna", "Smith", none, "C1", none, 0, none, none, 0⟩], [], []⟩
      = .ok [⟨1, "Anna", "Smith", none, "C1", none, 0, none, none, 0⟩] :=
  ((get_queryset_name_filter ⟨[("name", "an")], none⟩
      ⟨[⟨1, "Anna", "Smith", none, "C1", none, 0, none, none, 0⟩], [], []⟩
      rfl).1 "an" rfl (by decide)).trans (by rfl)

/-- Claim C5: `measure_time` never propagates an exception of the benchmarked
function — its embedding is a total function of the function's outcome. A
raised `OperationalError` whose message contains `timeout` case-insensitively
or the exact substring `QueryCanceled` is recorded as the literal `TIMEOUT`,
any other exception message is recorded verbatim, and a normal return yields
`error = None` with the response's status code and result count. -/
theorem measure_time_spec (outcome : Except PyExc (Option BenchResponse))
    (t : ℚ) (q : Nat) :
    (∀ m, outcome = .error (.operationalError m) →
      (measure_time outcome t q).error
        = some (if "timeout".data <:+: lowerStr m ∨ "QueryCanceled".data <:+: m.data
            then "TIMEOUT" else m))
    ∧ (∀ m, outcome = .error (.otherExc m) →
      (measure_time outcome t q).error = some m)
    ∧ (∀ resp, outcome = .ok resp →
      (measure_time outcome t q).error = none
      ∧ (measure_time outcome t q).status_code
          = (match resp with
             | some r => r.status_code
             | none => none)
      ∧ (measure_time outcome t q).result_count
          = (match resp with
             | some r =>
               match r.data with
               | some (.dictWithResults rs) => some rs.length
               | some (.plainList items) => some items.length
               | _ => none
             | none => none)) := by
  refine ⟨?_, ?_, ?_⟩
  · intro m hm
    subst hm
    by_cases hto : "timeout".data <:+: lowerStr m ∨ "QueryCanceled".data <:+: m.data
    · have hT : timeoutLikeMsg m = true := (timeoutLikeMsg_iff m).mpr hto
      simp [measure_time, hT, hto]
    · have hT : timeoutLikeMsg m = false := by
        rw [← Bool.not_eq_true, timeoutLikeMsg_iff]
        exact hto
      simp [measure_time, hT, hto]
  · intro m hm
    subst hm
    rfl
  · intro resp hr
    subst hr
    exact ⟨rfl, rfl, rfl⟩

/-- Witness for C5: an `OperationalError` mentioning `timeout` is recorded as
the literal `TIMEOUT`. -/
theorem measure_time_spec_witness :
    (measure_time (.error (.operationalError "query timeout")) 1 2).error
      = some "TIMEOUT" :=
  ((measure_time_spec (.error (.operationalError "query timeout")) 1 2).1
      "query timeout" rfl).trans (by decide)

/-- Claim C9: every value produced by `generate_customer_id` — applied to the
32 lowercase hexadecimal characters of `uuid.uuid4().hex` — is a string of
exactly 17 characters: `CUST-` followed by exactly 12 characters, each a
decimal digit or an uppercase letter between `A` and `F`. -/
theorem generate_customer_id_format (hexStr : String)
    (hlen : hexStr.data.length = 32)
    (hchars : ∀ c ∈ hexStr.data, c ∈ uuidHexChars) :
    (generate_customer_id hexStr).length = 17
    ∧ (generate_customer_id hexStr).data.take 5 = "CUST-".data
    ∧ ∀ c ∈ (generate_customer_id hexStr).data.drop 5,
        c.isDigit = true ∨ ('A' ≤ c ∧ c ≤ 'F') := by
  unfold generate_customer_id
  refine ⟨?_, ?_, ?_⟩
  · rw [String.length_append]
    have h1 : ("CUST-" : String).length = 5 := rfl
    have h2 : (String.mk ((hexStr.data.take 12).map Char.toUpper)).length
        = ((hexStr.data.take 12).map Char.toUpper).length := rfl
    rw [h1, h2, List.length_map, List.length_take, hlen]
    norm_num
  · rw [String.data_append]
    have h5 : ("CUST-" : String).data.length = 5 := rfl
    rw [← h5, List.take_left]
  · intro c hc
    rw [String.data_append] at hc
    have h5 : ("CUST-" : String).data.length = 5 := rfl
    rw [← h5, List.drop_left] at hc
    have hc2 : c ∈ (hexStr.data.take 12).map Char.toUpper := hc
    obtain ⟨a, ha, rfl⟩ := List.mem_map.mp hc2
    exact toUpper_hexChar a (hchars a (List.mem_of_mem_take ha))

/-- Witness for C9: the customer id generated from an all-zero uuid hex
string has length 17. -/
theorem generate_customer_id_format_witness :
    ("00000000000000000000000000000000" : String).data.length = 32
    ∧ (generate_customer_id "00000000000000000000000000000000").length = 17 :=
  ⟨by decide,
    (generate_customer_id_format "00000000000000000000000000000000"
      (by decide) (by decide)).1⟩

/-- Claim C6: in `benchmark_pagination_all_pages`, for `total_count > 0` and
`page_size > 0`, `total_pages = (total_count + page_size - 1) // page_size`
is the ceiling of `total_count / page_size` (characterised by
`page_size * (total_pages - 1) < total_count ≤ page_size * total_pages`), and
when `total_pages > 1` the list of pages to test is sorted, duplicate-free,
contains page 1, the middle page `(total_pages + 1) // 2` and the last page,
has at most `3 + num_random_pages` entries, and every entry lies between 1
and `total_pages`. `sample` stands for the value of `random.sample`, so it is
a duplicate-free pick from `available_pages` of size
`min(num_random_pages, len(available_pages))`. -/
theorem pagination_pages_spec (total_count page_size tp nrp : Nat)
    (sample : List Nat)
    (hc : 0 < total_count) (hp : 0 < page_size)
    (htp : tp = totalPagesOf total_count page_size)
    (htp1 : 1 < tp)
    (hsub : ∀ p ∈ sample, p ∈ availablePages tp)
    (hslen : sample.length = min nrp (availablePages tp).length) :
    (page_size * (tp - 1) < total_count ∧ total_count ≤ page_size * tp)
    ∧ (pagesToTest tp sample).Sorted (· ≤ ·)
    ∧ (pagesToTest tp sample).Nodup
    ∧ 1 ∈ pagesToTest tp sample
    ∧ middlePage tp ∈ pagesToTest tp sample
    ∧ tp ∈ pagesToTest tp sample
    ∧ (pagesToTest tp sample).length ≤ 3 + nrp
    ∧ (∀ p ∈ pagesToTest tp sample, 1 ≤ p ∧ p ≤ tp) := by
  have hA : page_size * (tp - 1) < total_count ∧ total_count ≤ page_size * tp := by
    have h0 : tp = (total_count + page_size - 1) / page_size := htp
    have hdm := Nat.div_add_mod (total_count + page_size - 1) page_size
    rw [← h0] at hdm
    have hmlt : (total_count + page_size - 1) % page_size < page_size :=
      Nat.mod_lt _ hp
    have hmul : page_size * tp = page_size * (tp - 1) + page_size := by
      cases tp with
      | zero => omega
      | succ n => simp [Nat.mul_succ]
    obtain ⟨X, hX⟩ : ∃ X, page_size * tp = X := ⟨_, rfl⟩
    obtain ⟨Y, hY⟩ : ∃ Y, page_size * (tp - 1) = Y := ⟨_, rfl⟩
    obtain ⟨m, hm⟩ : ∃ m, (total_count + page_size - 1) % page_size = m := ⟨_, rfl⟩
    rw [hX, hm] at hdm
    rw [hX, hY] at hmul
    rw [hm] at hmlt
    constructor
    · rw [hY]; omega
    · rw [hX]; omega
  obtain ⟨randoms, hrand⟩ :
      ∃ r, r = (if (availablePages tp).length > 0 then sample else []) := ⟨_, rfl⟩
  have hPdef : pagesToTest tp sample
      = List.insertionSort (fun a b => a ≤ b) ((basePages tp ++ randoms).dedup) := by
    rw [hrand]; rfl
  have hperm : (pagesToTest tp sample).Perm ((basePages tp ++ randoms).dedup) := by
    rw [hPdef]; exact List.perm_insertionSort _ _
  have hmem : ∀ x, x ∈ pagesToTest tp sample ↔ x ∈ basePages tp ∨ x ∈ randoms := by
    intro x
    rw [hperm.mem_iff, List.mem_dedup, List.mem_append]
  have hsorted : (pagesToTest tp sample).Sorted (· ≤ ·) := by
    rw [hPdef]; exact List.sorted_insertionSort _ _
  have hnodup : (pagesToTest tp sample).Nodup :=
    (hperm.nodup_iff).mpr (List.nodup_dedup _)
  have hmidmem : middlePage tp ∈ basePages tp := by
    by_cases h : middlePage tp = 1
    · rw [h]; simp [basePages]
    · simp [basePages, h]
  have htpmem : tp ∈ basePages tp := by
    by_cases h2 : tp = middlePage tp
    · have := hmidmem
      rwa [← h2] at this
    · have h1 : tp ≠ 1 := by omega
      simp [basePages, h1, h2]
  have hlenP : (pagesToTest tp sample).length ≤ 3 + nrp := by
    have h1 : (pagesToTest tp sample).length
        = ((basePages tp ++ randoms).dedup).length := hperm.length_eq
    have h2 : ((basePages tp ++ randoms).dedup).length
        ≤ (basePages tp ++ randoms).length :=
      (List.dedup_sublist _).length_le
    have h3 : (basePages tp).length ≤ 3 := by
      unfold basePages
      split_ifs <;> simp
    have h4 : randoms.length ≤ nrp := by
      rw [hrand]
      split
      · rw [hslen]; exact min_le_left _ _
      · simp
    have h5 := List.length_append (basePages tp) randoms
    omega
  have hbound : ∀ p ∈ pagesToTest tp sample, 1 ≤ p ∧ p ≤ tp := by
    intro p hp2
    rcases (hmem p).mp hp2 with hb | hr
    · have hcases : p = 1 ∨ p = middlePage tp ∨ p = tp := by
        unfold basePages at hb
        split_ifs at hb <;> simp at hb <;> tauto
      unfold middlePage at hcases
      omega
    · have hs : p ∈ sample := by
        rw [hrand] at hr
        by_cases hA2 : (availablePages tp).length > 0
        · rwa [if_pos hA2] at hr
        · rw [if_neg hA2] at hr
          simp at hr
      have hav := hsub p hs
      unfold availablePages at hav
      have hmr := (List.mem_filter.mp hav).1
      rw [List.mem_range'_1] at hmr
      omega
  exact ⟨hA, hsorted, hnodup, (hmem 1).mpr (.inl (by simp [basePages])),
    (hmem _).mpr (.inl hmidmem), (hmem _).mpr (.inl htpmem), hlenP, hbound⟩

/-- Witness for C6: 25 items at page size 5 give 5 pages; with two random
pages `[2, 4]` the tested pages include the first, middle and last page and
number at most five. -/
theorem pagination_pages_spec_witness :
    (5 = totalPagesOf 25 5)
    ∧ 1 ∈ pagesToTest 5 [2, 4]
    ∧ middlePage 5 ∈ pagesToTest 5 [2, 4]
    ∧ 5 ∈ pagesToTest 5 [2, 4]
    ∧ (pagesToTest 5 [2, 4]).length ≤ 3 + 2 := by
  have h := pagination_pages_spec 25 5 5 2 [2, 4] (by decide) (by decide)
    (by decide) (by decide) (by decide) (by decide)
  exact ⟨by decide, h.2.2.2.1, h.2.2.2.2.1, h.2.2.2.2.2.1, h.2.2.2.2.2.2.1⟩

end Crm
